import Mathlib

/-!
Shallow embedding of the ecobee climate platform
(`homeassistant/components/climate/ecobee.py`).

The snapshot-derived read properties become pure functions on a
`Snapshot` structure; command methods become functions from the adapter
state to a new state paired with the list of vendor-API calls issued
(`ApiCall`).  A command that raises an uncaught Python exception before
issuing its request is modelled by returning `none`.  The collaborator
`data.update(...)` is modelled by a function `fetch : Bool → EcobeeData`
giving the cache of the collaborator after an update call with the given
`no_throttle` flag.
-/

namespace Ecobee

/-- Platform state-name constants imported from homeassistant.const /
homeassistant.components.climate. -/
def STATE_AUTO : String := "auto"

def STATE_HEAT : String := "heat"

def STATE_COOL : String := "cool"

def STATE_OFF : String := "off"

def STATE_IDLE : String := "idle"

/-- Source `runtime` sub-document of a thermostat snapshot: temperatures
are in tenths of a degree, as the vendor reports them. -/
structure Runtime where
  actualTemperature : Int
  desiredHeat : Int
  desiredCool : Int
  actualHumidity : Int
  desiredFanMode : String
deriving Repr, DecidableEq, Inhabited

/-- Source `settings` sub-document of a thermostat snapshot. -/
structure Settings where
  hvacMode : String
  holdAction : String
  fanMinOnTime : Int
deriving Repr, DecidableEq, Inhabited

/-- Source `program` sub-document of a thermostat snapshot. -/
structure Program where
  currentClimateRef : String
deriving Repr, DecidableEq, Inhabited

/-- One entry of the `events` list of a thermostat snapshot. -/
structure ThermEvent where
  type : String
  running : Bool
  holdClimateRef : String
deriving Repr, DecidableEq, Inhabited

/-- One vendor device snapshot (`self.thermostat` in the source). -/
structure Snapshot where
  name : String
  runtime : Runtime
  settings : Settings
  program : Program
  events : List ThermEvent
  equipmentStatus : String
deriving Repr, DecidableEq, Inhabited

/-- The cache of the network collaborator: `data.ecobee.thermostats`. -/
structure EcobeeData where
  thermostats : List Snapshot
deriving Repr, DecidableEq, Inhabited

/-- Source `data.ecobee.get_thermostat(index)`. -/
def EcobeeData.get_thermostat (data : EcobeeData) (index : Nat) : Option Snapshot :=
  data.thermostats[index]?

/-- One request issued to the vendor API (`self.data.ecobee.*`).  The
argument order of `set_hold_temp` follows the vendor client: index, cool
temperature, heat temperature, preference.  `resume_program` carries the
optional serialized resume-all flag (absent when the source calls it with
the index alone). -/
inductive ApiCall where
  | set_climate_hold (index : Nat) (climate : String) (preference : String)
  | set_hold_temp (index : Nat) (coolTemp : Int) (heatTemp : Int) (preference : String)
  | set_hvac_mode (index : Nat) (mode : String)
  | resume_program (index : Nat) (resumeAll : Option String)
  | set_fan_min_on_time (index : Nat) (value : String)
deriving Repr, DecidableEq

/-- Python `int(...)` applied to a real number: truncation toward zero. -/
def pyInt (q : ℚ) : Int := if 0 ≤ q then ⌊q⌋ else ⌈q⌉

/-- Property `operation_mode`: the raw `settings.hvacMode`. -/
def operation_mode (s : Snapshot) : String := s.settings.hvacMode

/-- Property `current_operation`: `auxHeatOnly` and `heatPump` normalize
to heat, everything else passes through. -/
def current_operation (s : Snapshot) : String :=
  if operation_mode s = "auxHeatOnly" ∨ operation_mode s = "heatPump" then STATE_HEAT
  else operation_mode s

/-- Property `current_temperature`: `runtime.actualTemperature / 10`
(Python true division). -/
def current_temperature (s : Snapshot) : ℚ :=
  (s.runtime.actualTemperature : ℚ) / 10

/-- Property `target_temperature_low`. -/
def target_temperature_low (s : Snapshot) : Option Int :=
  if current_operation s = STATE_AUTO then
    some (pyInt ((s.runtime.desiredHeat : ℚ) / 10))
  else none

/-- Property `target_temperature_high`. -/
def target_temperature_high (s : Snapshot) : Option Int :=
  if current_operation s = STATE_AUTO then
    some (pyInt ((s.runtime.desiredCool : ℚ) / 10))
  else none

/-- Property `target_temperature`. -/
def target_temperature (s : Snapshot) : Option Int :=
  if current_operation s = STATE_AUTO then none
  else if current_operation s = STATE_HEAT then
    some (pyInt ((s.runtime.desiredHeat : ℚ) / 10))
  else if current_operation s = STATE_COOL then
    some (pyInt ((s.runtime.desiredCool : ℚ) / 10))
  else none

/-- Method `is_vacation_on()`. -/
def is_vacation_on (s : Snapshot) : Bool :=
  s.events.any fun event => decide (event.type = "vacation") && event.running

/-- Method `is_temp_hold_on()`. -/
def is_temp_hold_on (s : Snapshot) : Bool :=
  s.events.any fun event => decide (event.type = "hold") && event.running

/-- Property `is_away_mode_on`. -/
def is_away_mode_on (s : Snapshot) : Bool :=
  s.events.any fun event =>
    decide (event.holdClimateRef = "away") || decide (event.type = "autoAway")

/-- Property `is_home_mode_on`. -/
def is_home_mode_on (s : Snapshot) : Bool :=
  s.events.any fun event =>
    decide (event.holdClimateRef = "home") || decide (event.type = "autoHome")

/-- Property `current_hold_mode`: away, else home, else temp, else None. -/
def current_hold_mode (s : Snapshot) : Option String :=
  if is_away_mode_on s then some "away"
  else if is_home_mode_on s then some "home"
  else if is_temp_hold_on s then some "temp"
  else none

/-- Method `hold_preference()`: the configured `settings.holdAction`, normalized
to `nextTransition` unless it is `nextTransition` or `indefinite`. -/
def hold_preference (s : Snapshot) : String :=
  let d := s.settings.holdAction
  if d = "nextTransition" then d
  else if d = "indefinite" then d
  else "nextTransition"

/-- The adapter state of one thermostat entity.  `entity_id` is assigned
by the platform after registration (empty until then). -/
structure Thermostat where
  thermostat_index : Nat
  thermostat : Snapshot
  hold_temp : Bool
  update_without_throttle : Bool
  entity_id : String
deriving Repr, DecidableEq, Inhabited

/-- Constructor `Thermostat.__init__`: fetch the snapshot for the index from the
cache of the collaborator; the deferred-refresh flag starts clear.  `none`
models the lookup failing (index out of range). -/
def Thermostat.init (data : EcobeeData) (thermostat_index : Nat) (hold_temp : Bool) :
    Option Thermostat :=
  (data.get_thermostat thermostat_index).map fun snap =>
    { thermostat_index := thermostat_index
      thermostat := snap
      hold_temp := hold_temp
      update_without_throttle := false
      entity_id := "" }

/-- Method `Thermostat.update()`: when the deferred-refresh flag is set, fetch
unthrottled and clear it, otherwise fetch normally; then re-read this
snapshot of this adapter by its stable index.  The returned Bool records the
`no_throttle` value used by the fetch; `none` models the index lookup
raising. -/
def Thermostat.update (t : Thermostat) (fetch : Bool → EcobeeData) :
    Option (Thermostat × Bool) :=
  if t.update_without_throttle then
    match (fetch true).get_thermostat t.thermostat_index with
    | some snap =>
        some ({ t with update_without_throttle := false, thermostat := snap }, true)
    | none => none
  else
    match (fetch false).get_thermostat t.thermostat_index with
    | some snap => some ({ t with thermostat := snap }, false)
    | none => none

/-- Command `turn_away_mode_on()`. -/
def Thermostat.turn_away_mode_on (t : Thermostat) : Thermostat × List ApiCall :=
  ({ t with update_without_throttle := true },
   [ApiCall.set_climate_hold t.thermostat_index "away" (hold_preference t.thermostat)])

/-- Command `turn_home_mode_on()`. -/
def Thermostat.turn_home_mode_on (t : Thermostat) : Thermostat × List ApiCall :=
  ({ t with update_without_throttle := true },
   [ApiCall.set_climate_hold t.thermostat_index "home" (hold_preference t.thermostat)])

/-- Command `set_auto_temp_hold(heat_temp, cool_temp)`. -/
def Thermostat.set_auto_temp_hold (t : Thermostat) (heat_temp cool_temp : Int) :
    Thermostat × List ApiCall :=
  ({ t with update_without_throttle := true },
   [ApiCall.set_hold_temp t.thermostat_index cool_temp heat_temp
      (hold_preference t.thermostat)])

/-- Command `set_temp_hold(temp)`: when the current operation is neither heat nor
cool, `heat_temp`/`cool_temp` are never bound and the Python method raises
UnboundLocalError before any vendor call — modelled by `none`. -/
def Thermostat.set_temp_hold (t : Thermostat) (temp : Int) :
    Option (Thermostat × List ApiCall) :=
  if current_operation t.thermostat = STATE_HEAT then
    some ({ t with update_without_throttle := true },
      [ApiCall.set_hold_temp t.thermostat_index (temp + 20) temp
         (hold_preference t.thermostat)])
  else if current_operation t.thermostat = STATE_COOL then
    some ({ t with update_without_throttle := true },
      [ApiCall.set_hold_temp t.thermostat_index temp (temp - 20)
         (hold_preference t.thermostat)])
  else none

/-- Command `set_hold_mode(hold_mode)`. -/
def Thermostat.set_hold_mode (t : Thermostat) (hold_mode : Option String) :
    Option (Thermostat × List ApiCall) :=
  let hold := current_hold_mode t.thermostat
  if hold = hold_mode then some (t, [])
  else if hold_mode = some "away" then some t.turn_away_mode_on
  else if hold_mode = some "home" then some t.turn_home_mode_on
  else if hold_mode = some "temp" then
    t.set_temp_hold (pyInt (current_temperature t.thermostat))
  else
    some ({ t with update_without_throttle := true },
      [ApiCall.resume_program t.thermostat_index none])

/-- Command `turn_away_mode_off()`. -/
def Thermostat.turn_away_mode_off (t : Thermostat) : Option (Thermostat × List ApiCall) :=
  t.set_hold_mode none

/-- Command `set_temperature(**kwargs)`: kwargs modelled by the three optional
temperature arguments (target_temp_low, target_temp_high, temperature).
The validation-error branch only logs, issues nothing and returns
normally. -/
def Thermostat.set_temperature (t : Thermostat) (low_temp high_temp temp : Option ℚ) :
    Option (Thermostat × List ApiCall) :=
  if current_operation t.thermostat = STATE_AUTO ∧ low_temp.isSome ∧ high_temp.isSome then
    some (t.set_auto_temp_hold (pyInt (low_temp.getD 0)) (pyInt (high_temp.getD 0)))
  else if temp.isSome then
    t.set_temp_hold (pyInt (temp.getD 0))
  else
    some (t, [])

/-- Command `set_operation_mode(operation_mode)`. -/
def Thermostat.set_operation_mode (t : Thermostat) (mode : String) :
    Thermostat × List ApiCall :=
  ({ t with update_without_throttle := true },
   [ApiCall.set_hvac_mode t.thermostat_index mode])

/-- Command `set_fan_min_on_time(fan_min_on_time)`: the value arrives already
serialized as a string by the service handler. -/
def Thermostat.set_fan_min_on_time (t : Thermostat) (fan_min_on_time : String) :
    Thermostat × List ApiCall :=
  ({ t with update_without_throttle := true },
   [ApiCall.set_fan_min_on_time t.thermostat_index fan_min_on_time])

/-- Python `str(b).lower()` for a boolean. -/
def pyBoolStr (b : Bool) : String := if b then "true" else "false"

/-- Command `resume_program(resume_all)`: the flag is serialized as a lowercase
string. -/
def Thermostat.resume_program (t : Thermostat) (resume_all : Bool) :
    Thermostat × List ApiCall :=
  ({ t with update_without_throttle := true },
   [ApiCall.resume_program t.thermostat_index (some (pyBoolStr resume_all))])

/-- Function `setup_platform`: returns without constructing anything when
`discovery_info is None`; otherwise builds one adapter per index
`0..count-1` over the thermostat list of the collaborator.  `discovery_info`
is reduced to its one consumed field, `hold_temp`. -/
def setup_platform (data : EcobeeData) (discovery_info : Option Bool) :
    Option (List Thermostat) :=
  match discovery_info with
  | none => none
  | some hold_temp =>
      some ((List.range data.thermostats.length).filterMap fun index =>
        Thermostat.init data index hold_temp)

/-- Target resolution shared by both registered services: Python
`if entity_id:` treats both None and the empty list as "all devices". -/
def resolve_targets (devices : List Thermostat) (entity_id : Option (List String)) :
    List Thermostat :=
  match entity_id with
  | some ids =>
      if ids = [] then devices
      else devices.filter fun device => decide (device.entity_id ∈ ids)
  | none => devices

/-- Service `fan_min_on_time_set_service`: per selected adapter, the command is
invoked with `str(fan_min_on_time)`.  Result: the per-adapter outcomes
(new state and issued calls) in selection order. -/
def fan_min_on_time_set_service (devices : List Thermostat)
    (entity_id : Option (List String)) (fan_min_on_time : Int) :
    List (Thermostat × List ApiCall) :=
  (resolve_targets devices entity_id).map fun thermostat =>
    thermostat.set_fan_min_on_time (toString fan_min_on_time)

/-- Service `resume_program_set_service`. -/
def resume_program_set_service (devices : List Thermostat)
    (entity_id : Option (List String)) (resume_all : Bool) :
    List (Thermostat × List ApiCall) :=
  (resolve_targets devices entity_id).map fun thermostat =>
    thermostat.resume_program resume_all

/-! Concrete sample data used by witnesses and counterexamples. -/

/-- A sample runtime block (temperatures in tenths of a degree). -/
def runtime0 : Runtime :=
  { actualTemperature := 702
    desiredHeat := 705
    desiredCool := 751
    actualHumidity := 30
    desiredFanMode := "auto" }

/-- A sample snapshot with a chosen hvac mode, hold action and events. -/
def snapFull (mode action : String) (events : List ThermEvent) : Snapshot :=
  { name := "upstairs"
    runtime := runtime0
    settings := { hvacMode := mode, holdAction := action, fanMinOnTime := 5 }
    program := { currentClimateRef := "home" }
    events := events
    equipmentStatus := "" }

/-- A sample snapshot with hold action `askMe`. -/
def snapWith (mode : String) (events : List ThermEvent) : Snapshot :=
  snapFull mode "askMe" events

/-- A sample adapter over `snapWith mode events`, deferred-refresh flag
clear. -/
def thermoWith (mode : String) (events : List ThermEvent) : Thermostat :=
  { thermostat_index := 0
    thermostat := snapWith mode events
    hold_temp := true
    update_without_throttle := false
    entity_id := "climate.upstairs" }

/-- The collaborator cache holding two thermostats. -/
def data2 : EcobeeData := { thermostats := [snapWith "heat" [], snapWith "auto" []] }

/-- A sample adapter whose deferred-refresh flag is set. -/
def tFlagged : Thermostat := { thermoWith "heat" [] with update_without_throttle := true }

/-- The state a refresh of `tFlagged` against `data2` produces. -/
def tRefreshed : Thermostat :=
  { tFlagged with update_without_throttle := false, thermostat := snapWith "heat" [] }

/-- The state a command on `thermoWith "heat" []` produces. -/
def tCommanded : Thermostat :=
  { thermoWith "heat" [] with update_without_throttle := true }

/-- The adapter `setup_platform` constructs for a given index. -/
def mk_adapter (data : EcobeeData) (hold_temp : Bool) (index : ℕ) : Thermostat :=
  { thermostat_index := index
    thermostat := data.thermostats.getD index default
    hold_temp := hold_temp
    update_without_throttle := false
    entity_id := "" }

/-- C8: `current_operation` maps the raw `settings.hvacMode` values
`auxHeatOnly` and `heatPump` to `heat` and is the identity on every other
value. -/
theorem C8_current_operation_normalization :
    ∀ s : Snapshot,
      ((s.settings.hvacMode = "auxHeatOnly" ∨ s.settings.hvacMode = "heatPump") →
        current_operation s = STATE_HEAT) ∧
      (s.settings.hvacMode ≠ "auxHeatOnly" → s.settings.hvacMode ≠ "heatPump" →
        current_operation s = s.settings.hvacMode) := by
  intro s
  constructor
  · intro h
    rcases h with h | h <;> simp [current_operation, operation_mode, h]
  · intro h1 h2
    simp [current_operation, operation_mode, h1, h2]

/-- Witness for C8 at the concrete modes `heatPump` and `off`. -/
theorem C8_witness :
    current_operation (snapWith "heatPump" []) = STATE_HEAT ∧
    current_operation (snapWith "off" []) = "off" :=
  ⟨(C8_current_operation_normalization (snapWith "heatPump" [])).1 (Or.inr rfl),
   (C8_current_operation_normalization (snapWith "off" [])).2 (by decide) (by decide)⟩

/-- C9: `hold_preference()` returns the configured `settings.holdAction`
unchanged when it is `nextTransition` or `indefinite`, and
`nextTransition` for every other value. -/
theorem C9_hold_preference_normalization :
    ∀ s : Snapshot,
      ((s.settings.holdAction = "nextTransition" ∨ s.settings.holdAction = "indefinite") →
        hold_preference s = s.settings.holdAction) ∧
      (s.settings.holdAction ≠ "nextTransition" → s.settings.holdAction ≠ "indefinite" →
        hold_preference s = "nextTransition") := by
  intro s
  constructor
  · intro h
    rcases h with h | h <;> simp [hold_preference, h]
  · intro h1 h2
    simp [hold_preference, h1, h2]

/-- Witness for C9 at the concrete hold actions `askMe` and
`indefinite`. -/
theorem C9_witness :
    hold_preference (snapFull "heat" "askMe" []) = "nextTransition" ∧
    hold_preference (snapFull "heat" "indefinite" []) = "indefinite" :=
  ⟨(C9_hold_preference_normalization (snapFull "heat" "askMe" [])).2 (by decide) (by decide),
   (C9_hold_preference_normalization (snapFull "heat" "indefinite" [])).1 (Or.inr rfl)⟩

/-- C2: `current_hold_mode` precedence is away > home > generic
temperature hold > none; in particular a snapshot whose events are
`[{type: autoAway, running: true}, {type: hold, running: true}]` derives
`away`, never `temp`. -/
theorem C2_current_hold_mode_precedence :
    (∀ s : Snapshot,
      (is_away_mode_on s = true → current_hold_mode s = some "away") ∧
      (is_away_mode_on s = false → is_home_mode_on s = true →
        current_hold_mode s = some "home") ∧
      (is_away_mode_on s = false → is_home_mode_on s = false →
        is_temp_hold_on s = true → current_hold_mode s = some "temp") ∧
      (is_away_mode_on s = false → is_home_mode_on s = false →
        is_temp_hold_on s = false → current_hold_mode s = none)) ∧
    (∀ (s : Snapshot) (r1 r2 : String),
      s.events = [⟨"autoAway", true, r1⟩, ⟨"hold", true, r2⟩] →
      current_hold_mode s = some "away" ∧ current_hold_mode s ≠ some "temp") := by
  constructor
  · intro s
    refine ⟨fun h1 => ?_, fun h1 h2 => ?_, fun h1 h2 h3 => ?_, fun h1 h2 h3 => ?_⟩
    · simp [current_hold_mode, h1]
    · simp [current_hold_mode, h1, h2]
    · simp [current_hold_mode, h1, h2, h3]
    · simp [current_hold_mode, h1, h2, h3]
  · intro s r1 r2 h
    have haway : is_away_mode_on s = true := by
      simp [is_away_mode_on, h]
    simp [current_hold_mode, haway]

/-- Witness for C2 at the concrete two-event snapshot from the claim. -/
theorem C2_witness :
    current_hold_mode (snapWith "auto" [⟨"autoAway", true, ""⟩, ⟨"hold", true, ""⟩]) =
      some "away" ∧
    current_hold_mode (snapWith "auto" [⟨"autoAway", true, ""⟩, ⟨"hold", true, ""⟩]) ≠
      some "temp" :=
  C2_current_hold_mode_precedence.2
    (snapWith "auto" [⟨"autoAway", true, ""⟩, ⟨"hold", true, ""⟩]) "" "" rfl

/-- C5: `set_hold_mode(target)` with `target` equal to the derived
`current_hold_mode` is a no-op: the state is unchanged and zero
vendor-API calls are issued. -/
theorem C5_set_hold_mode_idempotent :
    ∀ (t : Thermostat) (hold_mode : Option String),
      hold_mode = current_hold_mode t.thermostat →
      t.set_hold_mode hold_mode = some (t, []) := by
  intro t hold_mode h
  simp [Thermostat.set_hold_mode, h]

/-- Witness for C5: on a snapshot with no events the derived hold mode is
`none`, and `set_hold_mode none` is a no-op. -/
theorem C5_witness :
    (none : Option String) = current_hold_mode (thermoWith "heat" []).thermostat ∧
    Thermostat.set_hold_mode (thermoWith "heat" []) none = some (thermoWith "heat" [], []) :=
  ⟨by decide, C5_set_hold_mode_idempotent (thermoWith "heat" []) none (by decide)⟩

/-- C6: `set_temp_hold(temp)` requests an explicit setpoint hold —
heat mode gives `heatTemp = temp`, `coolTemp = temp + 20`; cool mode
gives `heatTemp = temp - 20`, `coolTemp = temp` — with the resolved hold
preference and exactly one vendor-API call. -/
theorem C6_set_temp_hold_band :
    ∀ (t : Thermostat) (temp : Int),
      (current_operation t.thermostat = STATE_HEAT →
        t.set_temp_hold temp =
          some ({ t with update_without_throttle := true },
            [ApiCall.set_hold_temp t.thermostat_index (temp + 20) temp
               (hold_preference t.thermostat)])) ∧
      (current_operation t.thermostat = STATE_COOL →
        t.set_temp_hold temp =
          some ({ t with update_without_throttle := true },
            [ApiCall.set_hold_temp t.thermostat_index temp (temp - 20)
               (hold_preference t.thermostat)])) := by
  intro t temp
  constructor
  · intro h
    simp [Thermostat.set_temp_hold, h]
  · intro h
    simp [Thermostat.set_temp_hold, h, STATE_HEAT, STATE_COOL]

/-- Witness for C6 at the example of the claim: heat with temp 70 requests
heat 70 / cool 90, cool with temp 70 requests heat 50 / cool 70. -/
theorem C6_witness :
    Thermostat.set_temp_hold (thermoWith "heat" []) 70 =
      some ({ thermoWith "heat" [] with update_without_throttle := true },
        [ApiCall.set_hold_temp 0 90 70 "nextTransition"]) ∧
    Thermostat.set_temp_hold (thermoWith "cool" []) 70 =
      some ({ thermoWith "cool" [] with update_without_throttle := true },
        [ApiCall.set_hold_temp 0 70 50 "nextTransition"]) :=
  ⟨(C6_set_temp_hold_band (thermoWith "heat" []) 70).1 (by decide),
   (C6_set_temp_hold_band (thermoWith "cool" []) 70).2 (by decide)⟩

/-- C7: `set_temp_hold` invoked while the current operation is neither
heat nor cool raises before issuing any vendor call and without setting
the flag (modelled by `none`); the error branch is unreachable exactly
under the precondition operation ∈ {heat, cool}; the situation occurs
when `set_temperature` gets only a single target while in auto mode. -/
theorem C7_set_temp_hold_unbound_locals :
    ∀ (t : Thermostat) (temp : Int),
      (current_operation t.thermostat ≠ STATE_HEAT →
        current_operation t.thermostat ≠ STATE_COOL →
        t.set_temp_hold temp = none) ∧
      ((current_operation t.thermostat = STATE_HEAT ∨
        current_operation t.thermostat = STATE_COOL) →
        (t.set_temp_hold temp).isSome = true) ∧
      (∀ q : ℚ, current_operation t.thermostat = STATE_AUTO →
        t.set_temperature none none (some q) = none) := by
  intro t temp
  refine ⟨fun h1 h2 => ?_, fun h => ?_, fun q h => ?_⟩
  · simp [Thermostat.set_temp_hold, h1, h2]
  · rcases h with h | h <;> simp [Thermostat.set_temp_hold, h, STATE_HEAT, STATE_COOL]
  · simp [Thermostat.set_temperature, Thermostat.set_temp_hold, h,
      STATE_AUTO, STATE_HEAT, STATE_COOL]

/-- Witness for C7 at a concrete auto-mode adapter. -/
theorem C7_witness :
    Thermostat.set_temp_hold (thermoWith "auto" []) 70 = none ∧
    Thermostat.set_temperature (thermoWith "auto" []) none none (some 70) = none :=
  ⟨(C7_set_temp_hold_unbound_locals (thermoWith "auto" []) 70).1 (by decide) (by decide),
   (C7_set_temp_hold_unbound_locals (thermoWith "auto" []) 70).2.2 70 (by decide)⟩

/-- Counterexample to C4 as stated: with hvac mode `off` the operation is
not `auto` yet `target_temperature` is absent (so absence is not
exclusive to `auto`); and in heat mode with `desiredHeat = 705` tenths
the property yields the truncated 70, not `desiredHeat/10 = 70.5`. -/
theorem C4_counterexample :
    (current_operation (snapWith "off" []) ≠ STATE_AUTO ∧
      target_temperature (snapWith "off" []) = none) ∧
    (current_operation (snapWith "heat" []) = STATE_HEAT ∧
      target_temperature (snapWith "heat" []) = some 70 ∧
      ((snapWith "heat" []).runtime.desiredHeat : ℚ) / 10 ≠ (70 : ℚ)) := by
  refine ⟨⟨by decide, by decide⟩, ⟨by decide, ?_, ?_⟩⟩
  · show target_temperature (snapWith "heat" []) = some 70
    simp [target_temperature, current_operation, operation_mode, snapWith, snapFull,
      runtime0, STATE_AUTO, STATE_HEAT]
    norm_num [pyInt]
  · show ((snapWith "heat" []).runtime.desiredHeat : ℚ) / 10 ≠ (70 : ℚ)
    norm_num [snapWith, snapFull, runtime0]

/-- C4 amended: `target_temperature` is defined only when the operation
is heat or cool, in which case it equals the integer-truncated
`desiredHeat/10` resp. `desiredCool/10`, and it is absent for every other
operation (auto included); `target_temperature_low`/`_high` are present
exactly when the operation is auto, equal to the integer-truncated
`desiredHeat/10` and `desiredCool/10`. -/
theorem C4_amended_target_temperatures :
    ∀ s : Snapshot,
      (current_operation s = STATE_HEAT →
        target_temperature s = some (pyInt ((s.runtime.desiredHeat : ℚ) / 10))) ∧
      (current_operation s = STATE_COOL →
        target_temperature s = some (pyInt ((s.runtime.desiredCool : ℚ) / 10))) ∧
      (current_operation s ≠ STATE_HEAT → current_operation s ≠ STATE_COOL →
        target_temperature s = none) ∧
      ((target_temperature_low s).isSome = true ↔ current_operation s = STATE_AUTO) ∧
      ((target_temperature_high s).isSome = true ↔ current_operation s = STATE_AUTO) ∧
      (current_operation s = STATE_AUTO →
        target_temperature_low s = some (pyInt ((s.runtime.desiredHeat : ℚ) / 10)) ∧
        target_temperature_high s = some (pyInt ((s.runtime.desiredCool : ℚ) / 10))) := by
  intro s
  refine ⟨fun h => ?_, fun h => ?_, fun h1 h2 => ?_, ?_, ?_, fun h => ?_⟩
  · simp [target_temperature, h, STATE_HEAT, STATE_AUTO]
  · simp [target_temperature, h, STATE_COOL, STATE_HEAT, STATE_AUTO]
  · by_cases ha : current_operation s = STATE_AUTO <;>
      simp [target_temperature, ha, h1, h2]
  · by_cases ha : current_operation s = STATE_AUTO <;>
      simp [target_temperature_low, ha]
  · by_cases ha : current_operation s = STATE_AUTO <;>
      simp [target_temperature_high, ha]
  · simp [target_temperature_low, target_temperature_high, h]

/-- Witness for C4 amended at a concrete auto-mode snapshot
(`desiredHeat = 705`, `desiredCool = 751` tenths). -/
theorem C4_witness :
    target_temperature_low (snapWith "auto" []) = some 70 ∧
    target_temperature_high (snapWith "auto" []) = some 75 := by
  have h := (C4_amended_target_temperatures (snapWith "auto" [])).2.2.2.2.2 (by decide)
  refine ⟨?_, ?_⟩
  · rw [h.1]
    norm_num [snapWith, snapFull, runtime0, pyInt]
  · rw [h.2]
    norm_num [snapWith, snapFull, runtime0, pyInt]

/-- C3: `set_temperature` dispatches — auto with both bounds delegates to
`set_auto_temp_hold` on the truncated bounds (one vendor call); otherwise
a supplied single target delegates to `set_temp_hold` on its truncated
value; otherwise the call logs, issues zero vendor calls, leaves the
state unchanged and returns normally. -/
theorem C3_set_temperature_dispatch :
    ∀ (t : Thermostat) (low_temp high_temp temp : Option ℚ),
      (∀ lo hi, current_operation t.thermostat = STATE_AUTO →
        low_temp = some lo → high_temp = some hi →
        t.set_temperature low_temp high_temp temp =
          some (t.set_auto_temp_hold (pyInt lo) (pyInt hi))) ∧
      (∀ tv, ¬(current_operation t.thermostat = STATE_AUTO ∧
          low_temp.isSome = true ∧ high_temp.isSome = true) →
        temp = some tv →
        t.set_temperature low_temp high_temp temp = t.set_temp_hold (pyInt tv)) ∧
      (¬(current_operation t.thermostat = STATE_AUTO ∧
          low_temp.isSome = true ∧ high_temp.isSome = true) →
        temp = none →
        t.set_temperature low_temp high_temp temp = some (t, [])) ∧
      (∀ h c, (t.set_auto_temp_hold h c).2 =
        [ApiCall.set_hold_temp t.thermostat_index c h (hold_preference t.thermostat)]) := by
  intro t low_temp high_temp temp
  refine ⟨fun lo hi h1 h2 h3 => ?_, fun tv h1 h2 => ?_, fun h1 h2 => ?_, fun h c => rfl⟩
  · subst h2; subst h3
    simp [Thermostat.set_temperature, h1]
  · subst h2
    simp [Thermostat.set_temperature, h1]
  · subst h2
    simp [Thermostat.set_temperature, h1]

/-- Witness for C3: auto with bounds 60/80 delegates to the auto hold on
60 and 80; a bare call with no arguments is a no-op returning normally. -/
theorem C3_witness :
    Thermostat.set_temperature (thermoWith "auto" []) (some 60) (some 80) none =
      some (Thermostat.set_auto_temp_hold (thermoWith "auto" []) (pyInt 60) (pyInt 80)) ∧
    Thermostat.set_temperature (thermoWith "heat" []) none none none =
      some (thermoWith "heat" [], []) ∧
    pyInt 60 = 60 ∧ pyInt 80 = 80 :=
  ⟨(C3_set_temperature_dispatch (thermoWith "auto" []) (some 60) (some 80) none).1
      60 80 (by decide) rfl rfl,
   (C3_set_temperature_dispatch (thermoWith "heat" []) none none none).2.2.1
      (by simp) rfl,
   by norm_num [pyInt], by norm_num [pyInt]⟩

/-- Helper: a successful `set_temp_hold` leaves the deferred-refresh flag
set. -/
theorem set_temp_hold_sets_flag (t : Thermostat) (temp : Int)
    (r : Thermostat × List ApiCall) (h : t.set_temp_hold temp = some r) :
    r.1.update_without_throttle = true := by
  unfold Thermostat.set_temp_hold at h
  split at h
  · cases h; rfl
  · split at h
    · cases h; rfl
    · simp at h

/-- Counterexample to C1 as stated: `set_hold_mode` with the target equal
to the current hold mode returns normally (it ran) yet leaves the
deferred-refresh flag clear. -/
theorem C1_counterexample :
    Thermostat.set_hold_mode (thermoWith "heat" []) none =
      some (thermoWith "heat" [], []) ∧
    (thermoWith "heat" []).update_without_throttle = false := by
  exact ⟨by decide, rfl⟩

/-- C1 amended: every command that issues a vendor-API call leaves the
deferred-refresh flag set (the `set_hold_mode` no-op and the
`set_temperature` validation error issue nothing and leave it
unchanged); the subsequent `update()` fetches unthrottled and clears the
flag when it was set, fetches normally when it was clear, and in both
cases re-fetches the snapshot by the stable index. -/
theorem C1_amended_deferred_refresh :
    (∀ t : Thermostat, t.turn_away_mode_on.1.update_without_throttle = true) ∧
    (∀ t : Thermostat, t.turn_home_mode_on.1.update_without_throttle = true) ∧
    (∀ (t : Thermostat) (h c : Int),
      (t.set_auto_temp_hold h c).1.update_without_throttle = true) ∧
    (∀ (t : Thermostat) (temp : Int) (r : Thermostat × List ApiCall),
      t.set_temp_hold temp = some r → r.1.update_without_throttle = true) ∧
    (∀ (t : Thermostat) (m : String),
      (t.set_operation_mode m).1.update_without_throttle = true) ∧
    (∀ (t : Thermostat) (v : String),
      (t.set_fan_min_on_time v).1.update_without_throttle = true) ∧
    (∀ (t : Thermostat) (b : Bool),
      (t.resume_program b).1.update_without_throttle = true) ∧
    (∀ (t : Thermostat) (hm : Option String) (r : Thermostat × List ApiCall),
      hm ≠ current_hold_mode t.thermostat → t.set_hold_mode hm = some r →
      r.1.update_without_throttle = true) ∧
    (∀ (t : Thermostat) (lo hi tv : Option ℚ) (r : Thermostat × List ApiCall),
      t.set_temperature lo hi tv = some r → r.2 ≠ [] →
      r.1.update_without_throttle = true) ∧
    (∀ (t : Thermostat) (fetch : Bool → EcobeeData) (r : Thermostat × Bool),
      t.update_without_throttle = true → t.update fetch = some r →
      r.2 = true ∧ r.1.update_without_throttle = false ∧
      (fetch true).get_thermostat t.thermostat_index = some r.1.thermostat) ∧
    (∀ (t : Thermostat) (fetch : Bool → EcobeeData) (r : Thermostat × Bool),
      t.update_without_throttle = false → t.update fetch = some r →
      r.2 = false ∧ r.1.update_without_throttle = false ∧
      (fetch false).get_thermostat t.thermostat_index = some r.1.thermostat) := by
  refine ⟨fun t => rfl, fun t => rfl, fun t h c => rfl, set_temp_hold_sets_flag,
    fun t m => rfl, fun t v => rfl, fun t b => rfl, ?_, ?_, ?_, ?_⟩
  · intro t hm r hne h
    unfold Thermostat.set_hold_mode at h
    rw [if_neg (fun hh => hne hh.symm)] at h
    split at h
    · cases h; rfl
    · split at h
      · cases h; rfl
      · split at h
        · exact set_temp_hold_sets_flag t _ r h
        · cases h; rfl
  · intro t lo hi tv r h hne
    unfold Thermostat.set_temperature at h
    split at h
    · cases h; rfl
    · split at h
      · exact set_temp_hold_sets_flag t _ r h
      · cases h; simp at hne
  · intro t fetch r ht h
    unfold Thermostat.update at h
    rw [if_pos ht] at h
    split at h
    · next snap heq => cases h; exact ⟨rfl, rfl, heq⟩
    · simp at h
  · intro t fetch r ht h
    unfold Thermostat.update at h
    rw [if_neg (by simp [ht])] at h
    split at h
    · next snap heq => cases h; exact ⟨rfl, ht, heq⟩
    · simp at h

/-- Witness for C1 amended: a flagged adapter refreshes unthrottled,
clears the flag and re-reads its snapshot; a heat-mode `set_temp_hold`
leaves the flag set; a non-no-op `set_hold_mode` leaves the flag set. -/
theorem C1_witness :
    tFlagged.update_without_throttle = true ∧
    ((true : Bool) = true ∧
      tRefreshed.update_without_throttle = false ∧
      EcobeeData.get_thermostat data2 tFlagged.thermostat_index =
        some tRefreshed.thermostat) ∧
    tCommanded.update_without_throttle = true ∧
    tCommanded.update_without_throttle = true :=
  ⟨rfl,
   C1_amended_deferred_refresh.2.2.2.2.2.2.2.2.2.1 tFlagged (fun _ => data2)
     (tRefreshed, true) rfl (by decide),
   C1_amended_deferred_refresh.2.2.2.1 (thermoWith "heat" []) 70
     (tCommanded, [ApiCall.set_hold_temp 0 90 70 "nextTransition"]) (by decide),
   C1_amended_deferred_refresh.2.2.2.2.2.2.2.1 (thermoWith "heat" []) (some "away")
     (tCommanded, [ApiCall.set_climate_hold 0 "away" "nextTransition"])
     (by decide) (by decide)⟩

/-- Helper: `filterMap` over an initial range agrees with `map` when the
function is defined everywhere on the range. -/
theorem range_filterMap_eq_map {α : Type} (n : ℕ) (f : ℕ → Option α) (g : ℕ → α)
    (h : ∀ i, i < n → f i = some (g i)) :
    (List.range n).filterMap f = (List.range n).map g := by
  induction n with
  | zero => rfl
  | succ n ih =>
      rw [List.range_succ n, List.filterMap_append, List.map_append,
        ih fun i hi => h i (Nat.lt_succ_of_lt hi)]
      simp [h n (Nat.lt_succ_self n)]

/-- Helper: in-range construction succeeds and yields `mk_adapter`. -/
theorem init_in_range (data : EcobeeData) (ht : Bool) (i : ℕ)
    (hi : i < data.thermostats.length) :
    Thermostat.init data i ht = some (mk_adapter data ht i) := by
  unfold Thermostat.init EcobeeData.get_thermostat mk_adapter
  rw [List.getElem?_eq_getElem hi, List.getD_eq_getElem data.thermostats default hi]
  rfl

/-- Counterexample to C10 as stated: with a supplied (but empty)
entity-id set the service fans out to every adapter even though no
entity id of any adapter is a member of the supplied set. -/
theorem C10_counterexample :
    resolve_targets [thermoWith "heat" []] (some []) = [thermoWith "heat" []] ∧
    fan_min_on_time_set_service [thermoWith "heat" []] (some []) 5 =
      [Thermostat.set_fan_min_on_time (thermoWith "heat" []) "5"] ∧
    (thermoWith "heat" []).entity_id ∉ ([] : List String) := by
  exact ⟨rfl, by decide, by simp⟩

/-- C10 amended: `setup_platform` is a no-op without discovery context,
otherwise constructs one adapter per index in order; each service
resolves its targets to the adapters whose entity id lies in the
supplied set, or to all adapters when the set is unset or empty, and
invokes the per-adapter command (minutes serialized as a decimal string,
resume with the resume-all flag serialized lowercase). -/
theorem C10_amended_platform_setup_and_services :
    (∀ data : EcobeeData, setup_platform data none = none) ∧
    (∀ (data : EcobeeData) (ht : Bool) (devs : List Thermostat),
      setup_platform data (some ht) = some devs →
      devs.length = data.thermostats.length ∧
      ∀ (i : ℕ) (hi : i < devs.length),
        (devs.get ⟨i, hi⟩).thermostat_index = i ∧
        data.get_thermostat i = some (devs.get ⟨i, hi⟩).thermostat ∧
        (devs.get ⟨i, hi⟩).update_without_throttle = false) ∧
    (∀ (devices : List Thermostat) (ids : List String) (d : Thermostat), ids ≠ [] →
      (d ∈ resolve_targets devices (some ids) ↔ d ∈ devices ∧ d.entity_id ∈ ids)) ∧
    (∀ (devices : List Thermostat) (d : Thermostat),
      d ∈ resolve_targets devices none ↔ d ∈ devices) ∧
    (∀ (devices : List Thermostat) (d : Thermostat),
      d ∈ resolve_targets devices (some []) ↔ d ∈ devices) ∧
    (∀ (devices : List Thermostat) (entity_id : Option (List String)) (m : Int),
      fan_min_on_time_set_service devices entity_id m =
        (resolve_targets devices entity_id).map fun th =>
          th.set_fan_min_on_time (toString m)) ∧
    (∀ (devices : List Thermostat) (entity_id : Option (List String)) (b : Bool),
      resume_program_set_service devices entity_id b =
        (resolve_targets devices entity_id).map fun th => th.resume_program b) ∧
    (∀ (t : Thermostat) (v : String),
      (t.set_fan_min_on_time v).2 = [ApiCall.set_fan_min_on_time t.thermostat_index v]) ∧
    (∀ (t : Thermostat) (b : Bool),
      (t.resume_program b).2 =
        [ApiCall.resume_program t.thermostat_index (some (pyBoolStr b))]) := by
  refine ⟨fun data => rfl, ?_, ?_, fun devices d => Iff.rfl, fun devices d => Iff.rfl,
    fun devices e m => rfl, fun devices e b => rfl, fun t v => rfl, fun t b => rfl⟩
  · intro data ht devs h
    have hdevs : devs = (List.range data.thermostats.length).map (mk_adapter data ht) := by
      have h2 : setup_platform data (some ht) =
          some ((List.range data.thermostats.length).map (mk_adapter data ht)) := by
        show some ((List.range data.thermostats.length).filterMap
            fun index => Thermostat.init data index ht) = _
        rw [range_filterMap_eq_map data.thermostats.length _ (mk_adapter data ht)
          (fun i hi => init_in_range data ht i hi)]
      rw [h] at h2
      exact (Option.some_injective _ h2.symm).symm
    subst hdevs
    constructor
    · simp
    · intro i hi
      have hrange : i < (List.range data.thermostats.length).length := by
        simpa using hi
      have hlt : i < data.thermostats.length := by simpa using hi
      have hget : ((List.range data.thermostats.length).map (mk_adapter data ht)).get
          ⟨i, hi⟩ = mk_adapter data ht i := by
        simp [List.getElem_map]
      rw [hget]
      refine ⟨rfl, ?_, rfl⟩
      unfold EcobeeData.get_thermostat mk_adapter
      rw [List.getElem?_eq_getElem hlt, List.getD_eq_getElem data.thermostats default hlt]
  · intro devices ids d hne
    show d ∈ (if ids = [] then devices
        else devices.filter fun device => decide (device.entity_id ∈ ids)) ↔ _
    rw [if_neg hne]
    simp [List.mem_filter]

/-- Witness for C10 amended: setup over a two-thermostat cache builds two
adapters in index order; a supplied singleton entity-id set selects
exactly the matching adapter. -/
theorem C10_witness :
    ([mk_adapter data2 true 0, mk_adapter data2 true 1].length =
      data2.thermostats.length) ∧
    (thermoWith "heat" [] ∈
        resolve_targets [thermoWith "heat" []] (some ["climate.upstairs"]) ↔
      thermoWith "heat" [] ∈ [thermoWith "heat" []] ∧
      (thermoWith "heat" []).entity_id ∈ ["climate.upstairs"]) :=
  ⟨(C10_amended_platform_setup_and_services.2.1 data2 true
      [mk_adapter data2 true 0, mk_adapter data2 true 1] (by decide)).1,
   C10_amended_platform_setup_and_services.2.2.1 [thermoWith "heat" []]
     ["climate.upstairs"] (thermoWith "heat" []) (by decide)⟩

end Ecobee
